import Mathlib

set_option maxRecDepth 100000

/-!
Verification development for the location-extraction engine of `webtool.py`
(`parse_hunt_brothers_html` / `parse_single_location`).

Documents are modelled as `List Char`.  The regular-expression probes of the
source are hand-compiled, pattern by pattern, into executable scanning
functions with Python `re` semantics (leftmost match; greedy character
classes with backtracking where the pattern makes backtracking reachable;
lazy `.*?` as a shortest-first scan).  Character classes `\d`, `[A-Z]`, `\s`
are the ASCII classes, matching the ASCII documents this scraper handles.
-/

/-- ASCII decimal digit: the regex class `\d` on the ASCII inputs handled here. -/
def asciiDigit (c : Char) : Bool := decide ('0' ≤ c) && decide (c ≤ '9')

/-- ASCII uppercase letter: the regex class `[A-Z]`. -/
def asciiUpper (c : Char) : Bool := decide ('A' ≤ c) && decide (c ≤ 'Z')

/-- Whitespace as in Python `str.strip` and the regex class `\s` (ASCII part). -/
def isPyWs (c : Char) : Bool :=
  c = ' ' || c = '\t' || c = '\n' || c = '\r' || c = '\x0b' || c = '\x0c'

/-- Python `str.strip()`: remove leading and trailing whitespace. -/
def pystrip (l : List Char) : List Char :=
  ((l.dropWhile isPyWs).reverse.dropWhile isPyWs).reverse

/-- Consume a literal at the head of the text; return the remaining text. -/
def lit : List Char → List Char → Option (List Char)
  | [], s => some s
  | _ :: _, [] => none
  | c :: cs, d :: ds => if c = d then lit cs ds else none

/-- Python `re.search`: try the anchored matcher at every position, leftmost first. -/
def searchWith (m : List Char → Option α) : List Char → Option α
  | [] => m []
  | c :: t =>
    match m (c :: t) with
    | some r => some r
    | none => searchWith m t

/-- Anchored match of `<span class="distance">([^<]*)</span>` (line 200 of the source). -/
def matchDistanceAt (s : List Char) : Option (List Char) :=
  match lit ("<span class=\"distance\">".toList) s with
  | none => none
  | some r =>
    match lit ("</span>".toList) (r.dropWhile (· ≠ '<')) with
    | none => none
    | some _ => some (r.takeWhile (· ≠ '<'))

/-- Anchored match of `<h3><a[^>]*>([^<]*)</a></h3>` (line 204 of the source). -/
def matchNameAt (s : List Char) : Option (List Char) :=
  match lit ("<h3><a".toList) s with
  | none => none
  | some r1 =>
    match r1.dropWhile (· ≠ '>') with
    | '>' :: r2 =>
      match lit ("</a></h3>".toList) (r2.dropWhile (· ≠ '<')) with
      | none => none
      | some _ => some (r2.takeWhile (· ≠ '<'))
    | _ => none

/-- Anchored match of `/location-details/(\d+)` (line 208 of the source). -/
def matchIdAt (s : List Char) : Option (List Char) :=
  match lit ("/location-details/".toList) s with
  | none => none
  | some r =>
    if r.takeWhile asciiDigit = [] then none else some (r.takeWhile asciiDigit)

/-- Anchored match of `<i[^>]*></i>\s*([^<]*)<br>([^<]*)</a>` (line 212 of the source).
Returns the street-text group and the city/state/zip-text group. -/
def matchAddressAt (s : List Char) : Option (List Char × List Char) :=
  match lit ("<i".toList) s with
  | none => none
  | some r1 =>
    match r1.dropWhile (· ≠ '>') with
    | '>' :: r2 =>
      match lit ("</i>".toList) r2 with
      | none => none
      | some r3 =>
        match lit ("<br>".toList) ((r3.dropWhile isPyWs).dropWhile (· ≠ '<')) with
        | none => none
        | some r5 =>
          match lit ("</a>".toList) (r5.dropWhile (· ≠ '<')) with
          | none => none
          | some _ => some ((r3.dropWhile isPyWs).takeWhile (· ≠ '<'), r5.takeWhile (· ≠ '<'))
    | _ => none

/-- The zip part `\d{5}(?:-\d{4})?` of the city/state/zip pattern: five ASCII digits
with an optional (greedy) dash-and-four-digits tail. -/
def digitsPrefix5 : List Char → Option (List Char × List Char)
  | d1 :: d2 :: d3 :: d4 :: d5 :: rest =>
    if asciiDigit d1 && asciiDigit d2 && asciiDigit d3 && asciiDigit d4 && asciiDigit d5 then
      match rest with
      | '-' :: e1 :: e2 :: e3 :: e4 :: rest2 =>
        if asciiDigit e1 && asciiDigit e2 && asciiDigit e3 && asciiDigit e4 then
          some ([d1, d2, d3, d4, d5, '-', e1, e2, e3, e4], rest2)
        else some ([d1, d2, d3, d4, d5], rest)
      | _ => some ([d1, d2, d3, d4, d5], rest)
    else none
  | _ => none

/-- Anchored match of `([^,]+),\s*([A-Z]{2})\s+(\d{5}(?:-\d{4})?)` (line 225 of the
source): city text up to the first comma, two uppercase letters, the zip code.
`[^,]+` followed by the literal comma can only match up to the first comma; `\s*`
and `\s+` never overlap the letter and digit classes that follow them, so this
pattern is deterministic at a given start position. -/
def matchCszAt (s : List Char) : Option (List Char × List Char × List Char) :=
  match s.dropWhile (· ≠ ',') with
  | ',' :: r1 =>
    if s.takeWhile (· ≠ ',') = [] then none
    else
      match r1.dropWhile isPyWs with
      | c1 :: c2 :: r2 =>
        if asciiUpper c1 && asciiUpper c2 then
          match r2 with
          | w :: r3 =>
            if isPyWs w then
              match digitsPrefix5 (r3.dropWhile isPyWs) with
              | some z => some (s.takeWhile (· ≠ ','), [c1, c2], z.1)
              | none => none
            else none
          | [] => none
        else none
      | _ => none
  | _ => none

/-- Anchored match of `<a href="tel:[^"]*"[^>]*><i[^>]*></i>\s*([^<]*)</a>`
(line 232 of the source). -/
def matchPhoneAt (s : List Char) : Option (List Char) :=
  match lit ("<a href=\"tel:".toList) s with
  | none => none
  | some r1 =>
    match r1.dropWhile (· ≠ '"') with
    | '"' :: r2 =>
      match r2.dropWhile (· ≠ '>') with
      | '>' :: r3 =>
        match lit ("<i".toList) r3 with
        | none => none
        | some r4 =>
          match r4.dropWhile (· ≠ '>') with
          | '>' :: r5 =>
            match lit ("</i>".toList) r5 with
            | none => none
            | some r6 =>
              match lit ("</a>".toList) ((r6.dropWhile isPyWs).dropWhile (· ≠ '<')) with
              | none => none
              | some _ => some ((r6.dropWhile isPyWs).takeWhile (· ≠ '<'))
          | _ => none
      | _ => none
    | _ => none

/-- `re.search` wrappers for the five field probes of `parse_single_location`. -/
def searchDistance : List Char → Option (List Char) := searchWith matchDistanceAt

def searchName : List Char → Option (List Char) := searchWith matchNameAt

def searchId : List Char → Option (List Char) := searchWith matchIdAt

def searchAddress : List Char → Option (List Char × List Char) := searchWith matchAddressAt

def searchCsz : List Char → Option (List Char × List Char × List Char) := searchWith matchCszAt

def searchPhone : List Char → Option (List Char) := searchWith matchPhoneAt

/-- The stripped street-address and city/state/zip groups of the address probe
(lines 212-222 of the source); both empty when the probe fails. -/
def addressGroups (loc : List Char) : List Char × List Char :=
  match searchAddress loc with
  | some g => (pystrip g.1, pystrip g.2)
  | none => ([], [])

/-- The stripped city, state and zip fields from the city/state/zip probe
(lines 224-229 of the source); all empty when the probe fails. -/
def cszGroups (csz : List Char) : List Char × List Char × List Char :=
  match searchCsz csz with
  | some g => (pystrip g.1, pystrip g.2.1, pystrip g.2.2)
  | none => ([], [], [])

/-- The record assembled by `parse_single_location` (lines 235-248 of the source).
The Python dict has no `hours` key; the field is carried here (always empty on this
path) because the data model of the spec lists it and the fallback path fills it. -/
structure LocationRecord where
  locationId : List Char
  storeName : List Char
  address : List Char
  city : List Char
  state : List Char
  zipCode : List Char
  phone : List Char
  latitude : List Char
  longitude : List Char
  distance : List Char
  fullAddress : List Char
  elementIndex : Nat
  hours : List Char
deriving DecidableEq, Repr, Inhabited

/-- `parse_single_location(location_html, latitude, longitude, index)` from the
source (lines 196-251).  None of the regex operations can raise, so the
`except: return None` branch is unreachable and the function always returns a
record; group(1) of the location-id probe is the only group taken without
`.strip()`, exactly as in the source. -/
def parse_single_location (loc lat lng : List Char) (idx : Nat) : LocationRecord :=
  { locationId := match searchId loc with | some g => g | none => []
    storeName := match searchName loc with | some g => pystrip g | none => []
    address := (addressGroups loc).1
    city := (cszGroups (addressGroups loc).2).1
    state := (cszGroups (addressGroups loc).2).2.1
    zipCode := (cszGroups (addressGroups loc).2).2.2
    phone := match searchPhone loc with | some g => pystrip g | none => []
    latitude := lat
    longitude := lng
    distance := match searchDistance loc with | some g => pystrip g | none => []
    fullAddress :=
      if (addressGroups loc).1 ≠ [] ∧ (addressGroups loc).2 ≠ [] then
        (addressGroups loc).1 ++ ", ".toList ++ (addressGroups loc).2
      else []
    elementIndex := idx
    hours := [] }

/-- Python `html_content.find(pat, start)`: index of the first occurrence of the
literal at or after `start`, `none` when absent (Python's `-1`). -/
def strFindFrom (html pat : List Char) (start : Nat) : Option Nat :=
  (List.range (html.length + 1)).find? (fun p => decide (start ≤ p) && (lit pat (html.drop p)).isSome)

/-- The literal `<div class="hbp-location-list">` sought on line 147 of the source. -/
def containerOpenLit : List Char := "<div class=\"hbp-location-list\">".toList

/-- The literal `<div` counted by the container locator (line 158 of the source). -/
def openDivLit : List Char := "<div".toList

/-- The literal `</div>` counted by the container locator (line 159 of the source). -/
def closeDivLit : List Char := "</div>".toList

/-- The div-balancing loop of lines 152-172 of the source: starting just past the
container's opening tag with depth 1, repeatedly find the next `<div` and the next
`</div>`; whichever comes first increments or decrements the depth; when the depth
reaches 0 the span ends just past that `</div>` (`some`).  `none` is Python's
untouched `list_end = len(html_content)`: no further `</div>` exists, or the scan
position passes the end of the document.  Each iteration advances the scan position
by at least 4, so fuel `html.length + 1` is never exhausted. -/
def findListEnd (html : List Char) : Nat → Nat → Nat → Option Nat
  | 0, _, _ => none
  | fuel + 1, divCount, searchPos =>
    if 0 < divCount ∧ searchPos < html.length then
      match strFindFrom html closeDivLit searchPos with
      | none => none
      | some nc =>
        match strFindFrom html openDivLit searchPos with
        | some no =>
          if no < nc then findListEnd html fuel (divCount + 1) (no + 4)
          else if divCount = 1 then some (nc + 6)
          else findListEnd html fuel (divCount - 1) (nc + 6)
        | none =>
          if divCount = 1 then some (nc + 6)
          else findListEnd html fuel (divCount - 1) (nc + 6)
    else none

/-- The literal `<div class="listed-location"` opening the per-entry pattern of
line 177 of the source. -/
def entryOpenLit : List Char := "<div class=\"listed-location\"".toList

/-- The literal `data-lat="` of the per-entry pattern. -/
def latAttrLit : List Char := "data-lat=\"".toList

/-- The literal `data-lng="` of the per-entry pattern. -/
def lngAttrLit : List Char := "data-lng=\"".toList

/-- The group `([^"]*)` and its closing quote: text up to the first `"`, which
must exist. -/
def quotedVal (s : List Char) : Option (List Char × List Char) :=
  match s.dropWhile (· ≠ '"') with
  | '"' :: r => some (s.takeWhile (· ≠ '"'), r)
  | _ => none

/-- `[^>]*>`: skip to the first `>`, which must exist, and consume it. -/
def gtClose (s : List Char) : Option (List Char) :=
  match s.dropWhile (· ≠ '>') with
  | '>' :: r => some r
  | _ => none

/-- The terminator `</div>\s*</div>\s*</div>` of the per-entry pattern, anchored. -/
def closersAt (s : List Char) : Option (List Char) :=
  match lit closeDivLit s with
  | none => none
  | some r1 =>
    match lit closeDivLit (r1.dropWhile isPyWs) with
    | none => none
    | some r2 => lit closeDivLit (r2.dropWhile isPyWs)

/-- The lazy group `(.*?)` before the terminator: the shortest body after which
the three closing divs match.  Returns the body and the text after the match. -/
def findClosers : List Char → Option (List Char × List Char)
  | [] =>
    match closersAt [] with
    | some r => some ([], r)
    | none => none
  | c :: t =>
    match closersAt (c :: t) with
    | some r => some ([], r)
    | none =>
      match findClosers t with
      | some p => some (c :: p.1, p.2)
      | none => none

/-- Greedy `[^>]*` followed by a literal, with full backtracking: try the longest
gap inside the `>`-free run first and retry shorter gaps whenever the rest of the
pattern (the continuation) fails, exactly as Python's backtracking engine does. -/
def greedyGapGo (pat : List Char) (s : List Char) (cont : List Char → Option α) : Nat → Option α
  | 0 =>
    match lit pat s with
    | some r => cont r
    | none => none
  | k + 1 =>
    match lit pat (s.drop (k + 1)) with
    | some r =>
      match cont r with
      | some v => some v
      | none => greedyGapGo pat s cont k
    | none => greedyGapGo pat s cont k

/-- Entry point of the greedy-gap matcher: the longest candidate gap is the run of
non-`>` characters at the head of the text. -/
def greedyGap (pat : List Char) (s : List Char) (cont : List Char → Option α) : Option α :=
  greedyGapGo pat s cont (s.takeWhile (· ≠ '>')).length

/-- Anchored match of the full per-entry pattern of line 177 of the source,
`<div class="listed-location"[^>]*data-lat="([^"]*)"[^>]*data-lng="([^"]*)"[^>]*>`
`(.*?)</div>\s*</div>\s*</div>` (with `re.DOTALL`): returns the latitude group,
the longitude group, the body group, and the text after the match. -/
def matchEntryAt (s : List Char) : Option (List Char × List Char × List Char × List Char) :=
  match lit entryOpenLit s with
  | none => none
  | some s1 =>
    greedyGap latAttrLit s1 (fun r1 =>
      match quotedVal r1 with
      | none => none
      | some (la, r2) =>
        greedyGap lngAttrLit r2 (fun r3 =>
          match quotedVal r3 with
          | none => none
          | some (lo, r4) =>
            match gtClose r4 with
            | none => none
            | some r5 =>
              match findClosers r5 with
              | none => none
              | some (body, rest) => some (la, lo, body, rest)))

/-- `re.findall` of the per-entry pattern (line 178 of the source): scan left to
right; at a match, emit the groups and continue just past the match; otherwise
advance one character.  Every match consumes at least the 28-character opening
literal, so fuel `container.length + 1` is never exhausted. -/
def scanEntries : Nat → List Char → List (List Char × List Char × List Char)
  | 0, _ => []
  | _ + 1, [] => []
  | fuel + 1, c :: t =>
    match matchEntryAt (c :: t) with
    | some (la, lo, body, rest) => (la, lo, body) :: scanEntries fuel rest
    | none => scanEntries fuel t

/-- `enumerate` over a list with an explicit start index. -/
def withIndex (g : Nat → α → β) : Nat → List α → List β
  | _, [] => []
  | i, a :: t => g i a :: withIndex g (i + 1) t

/-- The per-entry loop of lines 182-188 of the source: every matched entry yields
a record (`parse_single_location` always returns a truthy dict and cannot raise,
so the `if location_data:` filter and the `except ... continue` never drop one). -/
def entryRecords (container : List Char) : List LocationRecord :=
  withIndex (fun i e => parse_single_location e.2.2 e.1 e.2.1 i) 0
    (scanEntries (container.length + 1) container)

/-- `parse_hunt_brothers_html(html_content)` from the source (lines 141-194):
locate the container, balance divs to find its end (end-of-document when the
balance never closes), then split the container span into entries and parse each.
The Streamlit `st.warning`/`st.info` calls only render status text and do not
affect the returned value. -/
def parse_hunt_brothers_html (html : List Char) : List LocationRecord :=
  match strFindFrom html containerOpenLit 0 with
  | none => []
  | some listStart =>
    entryRecords
      ((html.take ((findListEnd html (html.length + 1) 1 (listStart + 31)).getD html.length)).drop
        listStart)

/-- The spec's concrete scenario document: the `hbp-location-list` container
wrapping the CENEX ZIP TRIP fragment exactly as printed in the spec. -/
def c1Doc : List Char :=
  ("<div class=\"hbp-location-list\"><div class=\"listed-location\" data-lat=\"45.634266\" data-lng=\"-108.918157\"><h3><a href=\"/location-details/81626\">CENEX ZIP TRIP #50</a></h3><address class=\"address\"><i></i> 11 HWY 10 E<br>PARK CITY, MT 59063</address></div></div></div></div>").toList

/-- The inner HTML of the spec scenario's `listed-location` element. -/
def c1Body : List Char :=
  ("<h3><a href=\"/location-details/81626\">CENEX ZIP TRIP #50</a></h3><address class=\"address\"><i></i> 11 HWY 10 E<br>PARK CITY, MT 59063</address>").toList

/-- What `parse_single_location` actually extracts from the spec scenario's
fragment body: name, id and the coordinates, but no address fields, because the
address probe requires the block to be terminated by `</a>` and the fragment
terminates it with `</address>`. -/
def c1PartialRec : LocationRecord :=
  { locationId := "81626".toList
    storeName := "CENEX ZIP TRIP #50".toList
    address := []
    city := []
    state := []
    zipCode := []
    phone := []
    latitude := "45.634266".toList
    longitude := "-108.918157".toList
    distance := []
    fullAddress := []
    elementIndex := 0
    hours := [] }

/-- A document whose entry carries two nested inner divs, so that the three
consecutive closing divs demanded by the entry pattern fall inside the container
span; the engine extracts one complete record from it. -/
def validDoc : List Char :=
  ("<div class=\"hbp-location-list\"><div class=\"listed-location\" data-lat=\"45.634266\" data-lng=\"-108.918157\"><div class=\"info\"><h3><a href=\"/location-details/81626\">CENEX ZIP TRIP #50</a></h3><div class=\"addr\"><a href=\"/dir\"><i></i> 11 HWY 10 E<br>PARK CITY, MT 59063</a><a href=\"tel:4066332359\"><i></i> (406) 633-2359</a></div></div></div></div>").toList

/-- The record the engine extracts from `validDoc`. -/
def validRec : LocationRecord :=
  { locationId := "81626".toList
    storeName := "CENEX ZIP TRIP #50".toList
    address := "11 HWY 10 E".toList
    city := "PARK CITY".toList
    state := "MT".toList
    zipCode := "59063".toList
    phone := "(406) 633-2359".toList
    latitude := "45.634266".toList
    longitude := "-108.918157".toList
    distance := []
    fullAddress := "11 HWY 10 E, PARK CITY, MT 59063".toList
    elementIndex := 0
    hours := [] }

/-- A document whose address block reads `11 HWY 10 E<br>, , MT 59063`: the
city/state/zip probe matches with a whitespace-only city group, which strips to
the empty string while state and zip are populated. -/
def c3Doc : List Char :=
  ("<div class=\"hbp-location-list\"><div class=\"listed-location\" data-lat=\"1.0\" data-lng=\"2.0\"><div><a href=\"/location-details/7\"><b>X</b></a><a href=\"x\"><i></i> 11 HWY 10 E<br>, , MT 59063</a></div></div></div>").toList

/-- `validDoc` with an empty `data-lat` attribute value. -/
def c5Doc : List Char :=
  ("<div class=\"hbp-location-list\"><div class=\"listed-location\" data-lat=\"\" data-lng=\"-108.918157\"><div class=\"info\"><h3><a href=\"/location-details/81626\">CENEX ZIP TRIP #50</a></h3><div class=\"addr\"><a href=\"/dir\"><i></i> 11 HWY 10 E<br>PARK CITY, MT 59063</a><a href=\"tel:4066332359\"><i></i> (406) 633-2359</a></div></div></div></div>").toList

/-- The record the engine extracts from `c5Doc`: empty latitude, populated longitude. -/
def c5Rec : LocationRecord :=
  { locationId := "81626".toList
    storeName := "CENEX ZIP TRIP #50".toList
    address := "11 HWY 10 E".toList
    city := "PARK CITY".toList
    state := "MT".toList
    zipCode := "59063".toList
    phone := "(406) 633-2359".toList
    latitude := []
    longitude := "-108.918157".toList
    distance := []
    fullAddress := "11 HWY 10 E, PARK CITY, MT 59063".toList
    elementIndex := 0
    hours := [] }

/-- A well-formed container whose `listed-location` entry carries `data-lat`
but no `data-lng` attribute. -/
def c9Doc : List Char :=
  ("<div class=\"hbp-location-list\"><div class=\"listed-location\" data-lat=\"45.0\"><div><div>X</div></div></div></div>").toList

/-- A truncated document: the container opens but no `</div>` ever appears. -/
def c7Doc : List Char := ("<div class=\"hbp-location-list\"><div class=\"x\">hello").toList

/-- Modelled from the spec: markup stripping for the Heuristic Fallback Parser of
spec section 4.6, which is code of this repository not present under src/.  Every
`<...>` span is removed; an unterminated tag discards the rest of the text.  Each
step consumes at least one character, so fuel `text.length + 1` is never exhausted. -/
def stripMarkup : Nat → List Char → List Char
  | 0, _ => []
  | _ + 1, [] => []
  | fuel + 1, '<' :: t =>
    match t.dropWhile (· ≠ '>') with
    | '>' :: r => stripMarkup fuel r
    | _ => []
  | fuel + 1, c :: t => c :: stripMarkup fuel t

/-- Modelled from the spec: character-entity decoding for the Heuristic Fallback
Parser of spec section 4.6 (not present under src/), over the common named entities. -/
def decodeEntities : List Char → List Char
  | '&' :: 'a' :: 'm' :: 'p' :: ';' :: t => '&' :: decodeEntities t
  | '&' :: 'l' :: 't' :: ';' :: t => '<' :: decodeEntities t
  | '&' :: 'g' :: 't' :: ';' :: t => '>' :: decodeEntities t
  | '&' :: 'q' :: 'u' :: 'o' :: 't' :: ';' :: t => '"' :: decodeEntities t
  | '&' :: '#' :: '3' :: '9' :: ';' :: t => '\'' :: decodeEntities t
  | '&' :: 'n' :: 'b' :: 's' :: 'p' :: ';' :: t => ' ' :: decodeEntities t
  | c :: t => c :: decodeEntities t
  | [] => []

/-- Split on a separator character; used for the fallback parser's lines and
tokens.  Each step consumes at least one character plus a separator, so fuel
`l.length + 1` is never exhausted. -/
def splitOnChar (sep : Char) : Nat → List Char → List (List Char)
  | 0, _ => []
  | fuel + 1, l =>
    match l.dropWhile (· ≠ sep) with
    | _ :: r => l.takeWhile (· ≠ sep) :: splitOnChar sep fuel r
    | [] => [l.takeWhile (· ≠ sep)]

/-- Modelled from the spec: the fixed keyword set of store-name indicators of
spec section 4.6 ("a fixed keyword set denoting retail/venue naming"). -/
def storeKeywords : List (List Char) :=
  ["STORE", "MART", "SHOP", "MARKET", "STATION", "GROCERY", "PIZZA", "CAFE", "DELI"].map
    String.toList

/-- Modelled from the spec: the street-suffix keyword set of spec section 4.6
("highway/street/avenue/road/drive/lane/boulevard abbreviations"). -/
def streetKeywords : List (List Char) :=
  ["HIGHWAY", "HWY", "STREET", "ST", "AVENUE", "AVE", "ROAD", "RD", "DRIVE", "DR", "LANE",
    "LN", "BOULEVARD", "BLVD"].map String.toList

/-- Substring test used by the fallback line classifiers. -/
def containsSub (sub : List Char) : List Char → Bool
  | [] => sub.isPrefixOf ([] : List Char)
  | c :: t => sub.isPrefixOf (c :: t) || containsSub sub t

/-- Modelled from the spec: a store-name indicator line (presence of `#`, a
possessive marker, or a retail keyword), tested on the uppercased line. -/
def isStoreLine (u : List Char) : Bool :=
  containsSub ("#".toList) u || containsSub ("'S".toList) u ||
    storeKeywords.any (fun k => containsSub k u)

/-- Modelled from the spec: a street-address line — a leading number token
followed somewhere by a street-suffix keyword token. -/
def isStreetLine (u : List Char) : Bool :=
  match splitOnChar ' ' (u.length + 1) u with
  | [] => false
  | t0 :: rest =>
    (t0 ≠ [] && t0.all asciiDigit) && (t0 :: rest).any (fun tok => streetKeywords.any (tok == ·))

/-- Three digits, a separator, four digits: the tail of the modelled phone pattern. -/
def phoneTail (s : List Char) : Bool :=
  match s with
  | a :: b :: c :: sp :: d :: e :: f :: g :: _ =>
    (asciiDigit a && asciiDigit b && asciiDigit c) && (sp = '-' || sp = '.' || sp = ' ') &&
      (asciiDigit d && asciiDigit e && asciiDigit f && asciiDigit g)
  | _ => false

/-- Modelled from the spec: an anchored phone-number pattern — a parenthesised or
bare three-digit area code followed by a seven-digit local part. -/
def phoneAt : List Char → Bool
  | '(' :: a :: b :: c :: ')' :: ' ' :: rest =>
    (asciiDigit a && asciiDigit b && asciiDigit c) && phoneTail rest
  | '(' :: a :: b :: c :: ')' :: rest =>
    (asciiDigit a && asciiDigit b && asciiDigit c) && phoneTail rest
  | a :: b :: c :: sp :: rest =>
    (asciiDigit a && asciiDigit b && asciiDigit c) && (sp = '-' || sp = '.' || sp = ' ') &&
      phoneTail rest
  | _ => false

/-- A phone-number pattern occurring anywhere in the line. -/
def hasPhoneIn : List Char → Bool
  | [] => false
  | c :: t => phoneAt (c :: t) || hasPhoneIn t

/-- Modelled from the spec: an hours line — an hours/open/closed keyword combined
with an am/pm/24 marker, tested on the uppercased line. -/
def isHoursLine (u : List Char) : Bool :=
  (["HOURS", "OPEN", "CLOSED"].map String.toList).any (fun k => containsSub k u) &&
    (["AM", "PM", "24"].map String.toList).any (fun k => containsSub k u)

/-- Modelled from the spec: the "current record under construction" accumulator of
the Heuristic Fallback Parser (spec sections 4.6 and 9). -/
structure FbAcc where
  storeName : List Char := []
  address : List Char := []
  cszText : List Char := []
  city : List Char := []
  state : List Char := []
  zipCode : List Char := []
  phone : List Char := []
  hours : List Char := []
deriving DecidableEq, Repr, Inhabited

/-- Modelled from the spec: the line-classification step function of spec section
4.6, applied to one line.  Transitions are tried in the spec's order: store-name
indicator (flushing a qualifying accumulator), street suffix, city/state/zip via
the Place Decomposer's rule, phone, hours; any other line changes nothing. -/
def stepLine (st : FbAcc × List FbAcc) (line : List Char) : FbAcc × List FbAcc :=
  let l := pystrip line
  if l = [] then st
  else
    let u := l.map Char.toUpper
    if isStoreLine u then
      if st.1.storeName ≠ [] ∨ st.1.address ≠ [] then ({ storeName := l }, st.2 ++ [st.1])
      else ({ storeName := l }, st.2)
    else if isStreetLine u then ({ st.1 with address := l }, st.2)
    else
      match searchCsz l with
      | some g =>
        ({ st.1 with
            cszText := l
            city := pystrip g.1
            state := pystrip g.2.1
            zipCode := pystrip g.2.2 }, st.2)
      | none =>
        if hasPhoneIn l then ({ st.1 with phone := l }, st.2)
        else if isHoursLine u then ({ st.1 with hours := l }, st.2)
        else st

/-- Modelled from the spec: the Record Normalizer applied to a flushed fallback
accumulator (spec sections 4.5 and 4.6): every missing field defaults to empty,
`fullAddress` is derived as in section 3, and `elementIndex` is the record's
position in the output sequence. -/
def accToRecord (i : Nat) (a : FbAcc) : LocationRecord :=
  { locationId := []
    storeName := a.storeName
    address := a.address
    city := a.city
    state := a.state
    zipCode := a.zipCode
    phone := a.phone
    latitude := []
    longitude := []
    distance := []
    fullAddress :=
      if a.address ≠ [] ∧ a.cszText ≠ [] then a.address ++ ", ".toList ++ a.cszText else []
    elementIndex := i
    hours := a.hours }

/-- Modelled from the spec: the Heuristic Fallback Parser of spec section 4.6
(code of this repository not present under src/): strip markup, decode entities,
classify line by line, flush the final accumulator if it has a store name or an
address, and normalize each flushed accumulator with its output position. -/
def fallbackParse (text : List Char) : List LocationRecord :=
  let cleaned := decodeEntities (stripMarkup (text.length + 1) text)
  let lines := splitOnChar '\n' (cleaned.length + 1) cleaned
  let st := lines.foldl stepLine (({} : FbAcc), [])
  withIndex accToRecord 0
    (if st.1.storeName ≠ [] ∨ st.1.address ≠ [] then st.2 ++ [st.1] else st.2)

/-- Modelled from the spec: the engine dispatch of spec section 2 — the structural
path runs first and the Heuristic Fallback Parser produces the output sequence
exactly when the structural sequence is empty.  The structural path is the code of
`webtool.py`; the dispatch and fallback are repository code not present under src/. -/
def extract_locations (html : List Char) : List LocationRecord :=
  if parse_hunt_brothers_html html = [] then fallbackParse html else parse_hunt_brothers_html html

/-- The fallback scenario input text of the spec (section 8). -/
def leeboText : List Char :=
  ("LEEBO'S #1\n1783 HIGHWAY 121\nHINESTON, LA 71309\n(318) 793-2400\n").toList

/-- The record the spec expects from the fallback scenario. -/
def leeboRec : LocationRecord :=
  { locationId := []
    storeName := "LEEBO'S #1".toList
    address := "1783 HIGHWAY 121".toList
    city := "HINESTON".toList
    state := "LA".toList
    zipCode := "71309".toList
    phone := "(318) 793-2400".toList
    latitude := []
    longitude := []
    distance := []
    fullAddress := "1783 HIGHWAY 121, HINESTON, LA 71309".toList
    elementIndex := 0
    hours := [] }

/-- The record the engine extracts from `c3Doc`: empty city, populated state and zip. -/
def c3Rec : LocationRecord :=
  { locationId := "7".toList
    storeName := []
    address := "11 HWY 10 E".toList
    city := []
    state := "MT".toList
    zipCode := "59063".toList
    phone := []
    latitude := "1.0".toList
    longitude := "2.0".toList
    distance := []
    fullAddress := "11 HWY 10 E, , , MT 59063".toList
    elementIndex := 0
    hours := [] }

lemma psl_elementIndex (b la lo : List Char) (i : Nat) :
    (parse_single_location b la lo i).elementIndex = i := rfl

lemma psl_latitude (b la lo : List Char) (i : Nat) :
    (parse_single_location b la lo i).latitude = la := rfl

lemma psl_longitude (b la lo : List Char) (i : Nat) :
    (parse_single_location b la lo i).longitude = lo := rfl

lemma psl_address (b la lo : List Char) (i : Nat) :
    (parse_single_location b la lo i).address = (addressGroups b).1 := rfl

lemma psl_city (b la lo : List Char) (i : Nat) :
    (parse_single_location b la lo i).city = (cszGroups (addressGroups b).2).1 := rfl

lemma psl_state (b la lo : List Char) (i : Nat) :
    (parse_single_location b la lo i).state = (cszGroups (addressGroups b).2).2.1 := rfl

lemma psl_zipCode (b la lo : List Char) (i : Nat) :
    (parse_single_location b la lo i).zipCode = (cszGroups (addressGroups b).2).2.2 := rfl

lemma psl_fullAddress (b la lo : List Char) (i : Nat) :
    (parse_single_location b la lo i).fullAddress =
      if (addressGroups b).1 ≠ [] ∧ (addressGroups b).2 ≠ [] then
        (addressGroups b).1 ++ ", ".toList ++ (addressGroups b).2
      else [] := rfl

lemma withIndex_get? (g : Nat → α → β) :
    ∀ (l : List α) (i0 j : Nat), (withIndex g i0 l).get? j = (l.get? j).map (g (i0 + j)) := by
  intro l
  induction l with
  | nil => intro i0 j; simp [withIndex]
  | cons a t ih =>
    intro i0 j
    cases j with
    | zero => simp [withIndex]
    | succ jj =>
      simp only [withIndex, List.get?_cons_succ]
      rw [ih (i0 + 1) jj, show i0 + 1 + jj = i0 + (jj + 1) by omega]

lemma mem_withIndex {g : Nat → α → β} :
    ∀ (l : List α) (i0 : Nat) {b : β}, b ∈ withIndex g i0 l → ∃ i a, a ∈ l ∧ b = g i a := by
  intro l
  induction l with
  | nil => intro i0 b h; simp [withIndex] at h
  | cons a t ih =>
    intro i0 b h
    simp only [withIndex, List.mem_cons] at h
    rcases h with h | h
    · exact ⟨i0, a, List.mem_cons_self a t, h⟩
    · obtain ⟨i, a2, ha2, hb⟩ := ih (i0 + 1) h
      exact ⟨i, a2, List.mem_cons_of_mem a ha2, hb⟩

lemma mem_scanEntries :
    ∀ (fuel : Nat) (s : List Char) {e : List Char × List Char × List Char},
      e ∈ scanEntries fuel s →
        ∃ s2 rest, matchEntryAt s2 = some (e.1, e.2.1, e.2.2, rest) := by
  intro fuel
  induction fuel with
  | zero => intro s e h; simp [scanEntries] at h
  | succ n ih =>
    intro s e h
    cases s with
    | nil => simp [scanEntries] at h
    | cons c t =>
      rw [scanEntries] at h
      cases hm : matchEntryAt (c :: t) with
      | none => rw [hm] at h; exact ih t h
      | some q =>
        obtain ⟨la, lo, body, rest⟩ := q
        rw [hm] at h
        simp only [List.mem_cons] at h
        rcases h with h | h
        · subst h; exact ⟨c :: t, rest, hm⟩
        · exact ih rest h

lemma mem_parse {html : List Char} {r : LocationRecord} (h : r ∈ parse_hunt_brothers_html html) :
    ∃ body la lo i s2 rest,
      matchEntryAt s2 = some (la, lo, body, rest) ∧ r = parse_single_location body la lo i := by
  unfold parse_hunt_brothers_html at h
  cases hf : strFindFrom html containerOpenLit 0 with
  | none => rw [hf] at h; simp at h
  | some p =>
    rw [hf] at h
    unfold entryRecords at h
    obtain ⟨i, e, hel, he⟩ := mem_withIndex _ _ h
    obtain ⟨s2, rest, hm⟩ := mem_scanEntries _ _ hel
    exact ⟨e.2.2, e.1, e.2.1, i, s2, rest, hm, he⟩

lemma lit_prefix : ∀ (pat s r : List Char), lit pat s = some r → pat <+: s := by
  intro pat
  induction pat with
  | nil => intro s r _; exact List.nil_prefix
  | cons c cs ih =>
    intro s r h
    cases s with
    | nil => simp [lit] at h
    | cons d ds =>
      rw [lit] at h
      split at h
      · rename_i hcd
        subst hcd
        obtain ⟨t, ht⟩ := ih ds r h
        exact ⟨t, by rw [List.cons_append, ht]⟩
      · exact absurd h (by simp)

lemma isPyWs_cases {c : Char} (h : isPyWs c = true) :
    c = ' ' ∨ c = '\t' ∨ c = '\n' ∨ c = '\r' ∨ c = '\x0b' ∨ c = '\x0c' := by
  simp [isPyWs] at h
  tauto

lemma asciiUpper_not_ws {c : Char} (h : asciiUpper c = true) : isPyWs c = false := by
  cases hb : isPyWs c
  · rfl
  · exfalso
    rcases isPyWs_cases hb with h1 | h1 | h1 | h1 | h1 | h1 <;> subst h1 <;>
      exact absurd h (by decide)

lemma asciiDigit_not_ws {c : Char} (h : asciiDigit c = true) : isPyWs c = false := by
  cases hb : isPyWs c
  · rfl
  · exfalso
    rcases isPyWs_cases hb with h1 | h1 | h1 | h1 | h1 | h1 <;> subst h1 <;>
      exact absurd h (by decide)

lemma pystrip_cons_ne_nil {a : Char} {t : List Char} (ha : isPyWs a = false) :
    pystrip (a :: t) ≠ [] := by
  unfold pystrip
  rw [List.dropWhile_cons, ha]
  simp only [Bool.false_eq_true, if_false]
  intro hcontra
  have h1 : (a :: t).reverse.dropWhile isPyWs = [] := by
    have := congrArg List.reverse hcontra
    simpa using this
  have h2 := List.dropWhile_eq_nil_iff.mp h1 a (by simp)
  rw [ha] at h2
  exact Bool.false_ne_true h2

lemma searchWith_some {α} {m : List Char → Option α} :
    ∀ {s : List Char} {v : α}, searchWith m s = some v → ∃ s2, m s2 = some v := by
  intro s
  induction s with
  | nil => intro v h; exact ⟨[], by simpa [searchWith] using h⟩
  | cons c t ih =>
    intro v h
    rw [searchWith] at h
    cases hm : m (c :: t) with
    | some r => rw [hm] at h; exact ⟨c :: t, by rw [hm]; exact h⟩
    | none => rw [hm] at h; exact ih h

lemma digitsPrefix5_some {l : List Char} {p : List Char × List Char}
    (h : digitsPrefix5 l = some p) : ∃ d t2, p.1 = d :: t2 ∧ asciiDigit d = true := by
  unfold digitsPrefix5 at h
  split at h
  · rename_i d1 d2 d3 d4 d5 rest
    split at h
    · rename_i hg
      have hd1 : asciiDigit d1 = true := by
        simp only [Bool.and_eq_true] at hg
        tauto
      split at h
      · split at h
        · injection h with h2
          exact ⟨d1, _, by rw [← h2], hd1⟩
        · injection h with h2
          exact ⟨d1, _, by rw [← h2], hd1⟩
      · injection h with h2
        exact ⟨d1, _, by rw [← h2], hd1⟩
    · exact absurd h (by simp)
  · exact absurd h (by simp)

lemma matchCszAt_some {s : List Char} {g : List Char × List Char × List Char}
    (h : matchCszAt s = some g) :
    (∃ a b, g.2.1 = [a, b] ∧ asciiUpper a = true) ∧
      ∃ d t2, g.2.2 = d :: t2 ∧ asciiDigit d = true := by
  unfold matchCszAt at h
  split at h
  · split at h
    · exact absurd h (by simp)
    · split at h
      · split at h
        · rename_i hg
          split at h
          · split at h
            · split at h
              · rename_i z hz5
                obtain ⟨d, t2, hd1, hd2⟩ := digitsPrefix5_some hz5
                injection h with h2
                subst h2
                simp only [Bool.and_eq_true] at hg
                exact ⟨⟨_, _, rfl, hg.1⟩, ⟨d, t2, hd1, hd2⟩⟩
              · exact absurd h (by simp)
            · exact absurd h (by simp)
          · exact absurd h (by simp)
        · exact absurd h (by simp)
      · exact absurd h (by simp)
  · exact absurd h (by simp)

lemma cszGroups_state_zip (s : List Char) :
    cszGroups s = ([], [], []) ∨ ((cszGroups s).2.1 ≠ [] ∧ (cszGroups s).2.2 ≠ []) := by
  unfold cszGroups
  cases hs : searchCsz s with
  | none => exact Or.inl rfl
  | some g =>
    right
    obtain ⟨s2, hm⟩ := searchWith_some (show searchWith matchCszAt s = some g from hs)
    obtain ⟨⟨a, b, hst, ha⟩, ⟨d, t2, hz, hd⟩⟩ := matchCszAt_some hm
    constructor
    · show pystrip g.2.1 ≠ []
      rw [hst]
      exact pystrip_cons_ne_nil (asciiUpper_not_ws ha)
    · show pystrip g.2.2 ≠ []
      rw [hz]
      exact pystrip_cons_ne_nil (asciiDigit_not_ws hd)

/-- Claim C1 (counterexample): on the spec scenario's document — the
`hbp-location-list` container wrapping the printed CENEX fragment — the engine
does not return one record carrying the expected fields; it returns the empty
sequence, because the container locator's div balance reaches zero at the second
`</div>` of the fragment, so the container span contains only two consecutive
closing divs while the entry pattern demands three. -/
theorem claim_C1_counterexample :
    ¬ ∃ r, parse_hunt_brothers_html c1Doc = [r] ∧
        r.storeName = "CENEX ZIP TRIP #50".toList ∧ r.address = "11 HWY 10 E".toList := by
  intro ⟨r, h1, _⟩
  have h0 : parse_hunt_brothers_html c1Doc = [] := by decide
  rw [h0] at h1
  simp at h1

/-- Claim C1 (amended): on the spec scenario's document the engine returns the
empty sequence; and even applied directly to the fragment's inner HTML with the
scenario's coordinates, the field extractor produces only the location id, the
store name and the coordinates — address, city, state, zipCode and fullAddress
stay empty, since the address probe requires the address block to be terminated
by `</a>` and the fragment terminates it with `</address>`. -/
theorem claim_C1 :
    parse_hunt_brothers_html c1Doc = [] ∧
      parse_single_location c1Body ("45.634266".toList) ("-108.918157".toList) 0 =
        c1PartialRec := by
  exact ⟨by decide, by decide⟩

/-- Claim C2: whenever the structural path yields the empty sequence the engine's
output is the Heuristic Fallback Parser's output, and on the spec's fallback
scenario text the engine produces exactly the expected single record (store name
LEEBO'S #1, its address, city HINESTON, state LA, zip 71309 and phone). -/
theorem claim_C2 :
    (∀ html, parse_hunt_brothers_html html = [] → extract_locations html = fallbackParse html) ∧
      extract_locations leeboText = [leeboRec] := by
  constructor
  · intro html h
    simp [extract_locations, h]
  · decide

theorem claim_C2_witness : extract_locations leeboText = fallbackParse leeboText :=
  claim_C2.1 leeboText (by decide)

/-- Claim C3 (counterexample): the engine can produce a record whose state and
zipCode are populated while its city is empty — the city/state/zip probe accepts
a whitespace-only city group, which strips to the empty string. -/
theorem claim_C3_counterexample :
    ∃ r, r ∈ parse_hunt_brothers_html c3Doc ∧ r.city = [] ∧ r.state ≠ [] ∧ r.zipCode ≠ [] :=
  ⟨c3Rec, by decide, by decide, by decide, by decide⟩

/-- Claim C3 (amended): for every record produced by the extraction engine,
either city, state and zipCode are all empty, or state and zipCode are both
non-empty; city is then usually non-empty but may be empty when the matched city
text consists only of whitespace. -/
theorem claim_C3 (html : List Char) (r : LocationRecord)
    (h : r ∈ parse_hunt_brothers_html html) :
    (r.city = [] ∧ r.state = [] ∧ r.zipCode = []) ∨ (r.state ≠ [] ∧ r.zipCode ≠ []) := by
  obtain ⟨body, la, lo, i, s2, rest, hm, hr⟩ := mem_parse h
  rw [hr, psl_city, psl_state, psl_zipCode]
  rcases cszGroups_state_zip (addressGroups body).2 with hc | hc
  · left
    rw [hc]
    exact ⟨rfl, rfl, rfl⟩
  · right
    exact hc

theorem claim_C3_witness :
    (validRec.city = [] ∧ validRec.state = [] ∧ validRec.zipCode = []) ∨
      (validRec.state ≠ [] ∧ validRec.zipCode ≠ []) :=
  claim_C3 validDoc validRec (by decide)

/-- Claim C4: in the record sequence returned by the engine, the record at
position i (0-based) carries elementIndex i: indices are contiguous because the
per-entry loop of lines 182-188 appends a record for every match (the record
dict is always truthy and nothing in `parse_single_location` can raise), so the
enumerate counter coincides with the output position. -/
theorem claim_C4 (html : List Char) (i : Nat) (r : LocationRecord)
    (h : (parse_hunt_brothers_html html).get? i = some r) : r.elementIndex = i := by
  unfold parse_hunt_brothers_html at h
  cases hf : strFindFrom html containerOpenLit 0 with
  | none => rw [hf] at h; simp at h
  | some p =>
    rw [hf] at h
    unfold entryRecords at h
    rw [withIndex_get?] at h
    cases hg : (scanEntries _ _).get? i with
    | none => rw [hg] at h; simp at h
    | some e =>
      rw [hg] at h
      simp at h
      rw [← h, psl_elementIndex]

theorem claim_C4_witness : validRec.elementIndex = 0 :=
  claim_C4 validDoc 0 validRec (by decide)

/-- Claim C5 (counterexample): a record produced by the structural path can have
exactly one of the two coordinate fields non-empty — the attribute-value groups
`[^"]*` each accept the empty string independently. -/
theorem claim_C5_counterexample :
    ∃ r, r ∈ parse_hunt_brothers_html c5Doc ∧ r.latitude = [] ∧ r.longitude ≠ [] :=
  ⟨c5Rec, by decide, by decide, by decide⟩

/-- Claim C5 (amended): the latitude and longitude fields are the two captured
attribute values of the matched coordinate attribute pair, but each value may
independently be empty: on a document whose entry reads `data-lat=""` with a
populated `data-lng`, the engine emits the record with an empty latitude and a
non-empty longitude. -/
theorem claim_C5 : parse_hunt_brothers_html c5Doc = [c5Rec] := by decide

/-- Claim C6: when the container identifier `hbp-location-list` does not occur
anywhere in the document, the engine returns the empty sequence (the find of
line 147 fails, line 150 returns `[]`); no error and no failure value. -/
theorem claim_C6 (html : List Char) (h : ¬ ("hbp-location-list".toList <:+: html)) :
    parse_hunt_brothers_html html = [] := by
  have hf : strFindFrom html containerOpenLit 0 = none := by
    cases hf : strFindFrom html containerOpenLit 0 with
    | none => rfl
    | some p =>
      exfalso
      unfold strFindFrom at hf
      have hp := List.find?_some hf
      simp only [Bool.and_eq_true, Option.isSome_iff_exists] at hp
      obtain ⟨-, rr, hlit⟩ := hp
      have hpre : containerOpenLit <+: html.drop p := lit_prefix _ _ _ hlit
      have hinf : ("hbp-location-list".toList) <:+: containerOpenLit :=
        ⟨"<div class=\"".toList, "\">".toList, by decide⟩
      exact h (hinf.trans (hpre.isInfix.trans (List.drop_suffix p html).isInfix))
  unfold parse_hunt_brothers_html
  rw [hf]

theorem claim_C6_witness : parse_hunt_brothers_html ("<html></html>".toList) = [] :=
  claim_C6 _ (by decide)

/-- Claim C7: when the container's opening tag is found but the div balance
never reaches zero before the document ends, the container span extends to the
end of the document (`list_end` keeps its initial `len(html_content)`) and
extraction proceeds over that span instead of failing. -/
theorem claim_C7 (html : List Char) (s : Nat)
    (hfind : strFindFrom html containerOpenLit 0 = some s)
    (hend : findListEnd html (html.length + 1) 1 (s + 31) = none) :
    parse_hunt_brothers_html html = entryRecords (html.drop s) := by
  simp only [parse_hunt_brothers_html, hfind]
  rw [hend]
  simp [List.take_length]

theorem claim_C7_witness : parse_hunt_brothers_html c7Doc = entryRecords (c7Doc.drop 0) :=
  claim_C7 c7Doc 0 (by decide) (by decide)

/-- Claim C8: every record produced by the engine takes its fullAddress from its
entry fragment as the street group, a comma and space, and the city/state/zip
group concatenated when both are non-empty, and the empty string otherwise; its
address field is that same street group. -/
theorem claim_C8 (html : List Char) (r : LocationRecord)
    (h : r ∈ parse_hunt_brothers_html html) :
    ∃ loc, r.address = (addressGroups loc).1 ∧
      r.fullAddress =
        if (addressGroups loc).1 ≠ [] ∧ (addressGroups loc).2 ≠ [] then
          (addressGroups loc).1 ++ ", ".toList ++ (addressGroups loc).2
        else [] := by
  obtain ⟨body, la, lo, i, s2, rest, hm, hr⟩ := mem_parse h
  exact ⟨body, by rw [hr, psl_address], by rw [hr, psl_fullAddress]⟩

theorem claim_C8_witness :
    ∃ loc, validRec.address = (addressGroups loc).1 ∧
      validRec.fullAddress =
        if (addressGroups loc).1 ≠ [] ∧ (addressGroups loc).2 ≠ [] then
          (addressGroups loc).1 ++ ", ".toList ++ (addressGroups loc).2
        else [] :=
  claim_C8 validDoc validRec (by decide)

/-- Claim C9: the structural path emits a record only for an entry on which the
full per-entry pattern matched — in particular an opening tag carrying a
`data-lat` attribute followed by a `data-lng` attribute, whose captured values
become the record's coordinates; and a well-formed container whose
listed-location block lacks `data-lng` yields no record at all. -/
theorem claim_C9 :
    (∀ html r, r ∈ parse_hunt_brothers_html html →
        ∃ s2 body rest i, matchEntryAt s2 = some (r.latitude, r.longitude, body, rest) ∧
          r = parse_single_location body r.latitude r.longitude i) ∧
      parse_hunt_brothers_html c9Doc = [] := by
  constructor
  · intro html r h
    obtain ⟨body, la, lo, i, s2, rest, hm, hr⟩ := mem_parse h
    have hla : r.latitude = la := by rw [hr, psl_latitude]
    have hlo : r.longitude = lo := by rw [hr, psl_longitude]
    refine ⟨s2, body, rest, i, ?_, ?_⟩
    · rw [hla, hlo]
      exact hm
    · rw [hla, hlo]
      exact hr
  · decide

theorem claim_C9_witness :
    ∃ s2 body rest i, matchEntryAt s2 = some (validRec.latitude, validRec.longitude, body, rest) ∧
      validRec = parse_single_location body validRec.latitude validRec.longitude i :=
  claim_C9.1 validDoc validRec (by decide)

/-- Claim C10: the extraction engine is a pure function of the input text — two
runs on identical input yield identical output sequences. -/
theorem claim_C10 (h1 h2 : List Char) (heq : h1 = h2) :
    parse_hunt_brothers_html h1 = parse_hunt_brothers_html h2 := by
  rw [heq]

theorem claim_C10_witness :
    parse_hunt_brothers_html validDoc = parse_hunt_brothers_html validDoc :=
  claim_C10 validDoc validDoc rfl
